import Mathlib

/-!
Verification of the `create-network` genesis-configuration generator
(`trinity/components/eth2/network_generator/component.py`).

The development shallowly embeds the module:

* JSON-like configuration trees (`Json`), including raw byte values, since the
  in-memory genesis configuration may hold `bytes` that the custom
  `BytesJsonEncoder` renders as hex strings;
* Python truthiness for optional integer arguments and for parsed JSON values,
  which the source uses to branch (`if args.genesis_time`,
  `... and existing_genesis_config`);
* a filesystem model (association list of paths to file data, plus a set of
  directories) supporting `exists`, read, `mkdir(parents=True, exist_ok=True)`
  and overwriting writes;
* the full control flow of `NetworkGeneratorComponent._generate_network_as_json`,
  including the fact that `existing_genesis_config` is a *local variable that is
  only assigned when the output file exists* — when it is read while unbound,
  Python raises `UnboundLocalError`, which the embedding models as
  `RunError.unboundLocalError`.

External collaborators that are part of the repository but not under the
visible sources (`eth2.genesis`, `trinity.config`) are modelled from the spec;
each such definition carries a doc comment starting with `Modelled from the
spec:`.
-/

/-- A filesystem path, as its list of components. -/
abbrev FsPath : Type := List String

/-- JSON-like values, extended with raw byte strings (`bytes` in Python),
which may occur in the in-memory genesis configuration before serialization.
Objects are insertion-ordered association lists, matching Python dicts. -/
inductive Json where
  | null : Json
  | bool (b : Bool) : Json
  | num (n : Int) : Json
  | str (s : String) : Json
  | bytes (bs : List Nat) : Json
  | arr (elems : List Json) : Json
  | obj (fields : List (String × Json)) : Json

/-- Python truthiness of a parsed JSON value (`bool(x)` in Python):
`None`, `False`, `0`, `""`, `b""`, `[]` and `{}` are falsy. -/
def Json.truthy : Json → Bool
  | .null => false
  | .bool b => b
  | .num n => n != 0
  | .str s => s != ""
  | .bytes bs => !bs.isEmpty
  | .arr elems => !elems.isEmpty
  | .obj fields => !fields.isEmpty

/-- Python truthiness of an optional value holding a parsed JSON document
(`existing_genesis_config` is either `None` or the parsed tree). -/
def truthyOptJson : Option Json → Bool
  | none => false
  | some v => v.truthy

/-- Python truthiness of an optional integer CLI argument
(`args.genesis_time` / `args.genesis_delay`): absent (`None`) and `0` are
falsy, every other integer is truthy. -/
def intTruthy : Option Int → Bool
  | none => false
  | some n => n != 0

/-- Lookup in an insertion-ordered association list (Python `d[k]` returning
the value, `none` modelling `KeyError`). -/
def lookupField : List (String × Json) → String → Option Json
  | [], _ => none
  | (k, v) :: rest, key => if k = key then some v else lookupField rest key

/-- Python `d[k] = v` on an insertion-ordered dict: replaces the value of an
existing key in place, otherwise appends the binding. -/
def setField : List (String × Json) → String → Json → List (String × Json)
  | [], key, val => [(key, val)]
  | (k, v) :: rest, key, val =>
      if k = key then (k, val) :: rest else (k, v) :: setField rest key val

/-- `config[k]` on a JSON value: a key lookup succeeds only on objects. -/
def Json.getKey : Json → String → Option Json
  | .obj fields, key => lookupField fields key
  | _, _ => none

/-- `config[k1][k2]`: nested key access. -/
def Json.getKey2 (v : Json) (k1 k2 : String) : Option Json :=
  match v.getKey k1 with
  | some w => w.getKey k2
  | none => none

/-! ### Hex serialization (`BytesJsonEncoder`, Python `bytes.hex` / `bytes.fromhex`) -/

/-- One hex digit, lowercase: `0`–`9` then `a`–`f`, as produced by Python's
`bytes.hex`. -/
def hexDigitChar (n : Nat) : Char :=
  if n < 10 then Char.ofNat (48 + n) else Char.ofNat (87 + n)

/-- The two lowercase hex digits of one byte. -/
def byteToHex (b : Nat) : List Char :=
  [hexDigitChar (b / 16), hexDigitChar (b % 16)]

/-- `bytes.hex()`: the lowercase, unprefixed hex rendering of a byte string,
used by `BytesJsonEncoder.default` to serialize `bytes` values. -/
def encode_hex (bs : List Nat) : String :=
  ⟨bs.flatMap byteToHex⟩

/-- The numeric value of a hex digit character, as accepted by Python's
`bytes.fromhex` (both cases accepted). -/
def hexDigitVal (c : Char) : Option Nat :=
  if 48 ≤ c.toNat ∧ c.toNat ≤ 57 then some (c.toNat - 48)
  else if 97 ≤ c.toNat ∧ c.toNat ≤ 102 then some (c.toNat - 87)
  else if 65 ≤ c.toNat ∧ c.toNat ≤ 70 then some (c.toNat - 55)
  else none

/-- Decode a list of hex digit characters, two per byte. -/
def decodeHexChars : List Char → Option (List Nat)
  | [] => some []
  | c1 :: c2 :: rest =>
      match hexDigitVal c1, hexDigitVal c2, decodeHexChars rest with
      | some hi, some lo, some bs => some ((16 * hi + lo) :: bs)
      | _, _, _ => none
  | [_] => none

/-- `bytes.fromhex`: the inverse directions of the hex round-trip invariant. -/
def decode_hex (s : String) : Option (List Nat) :=
  decodeHexChars s.data

/-- A character is a lowercase hexadecimal digit. -/
def isLowerHexDigit (c : Char) : Bool :=
  (48 ≤ c.toNat && c.toNat ≤ 57) || (97 ≤ c.toNat && c.toNat ≤ 102)

mutual
/-- The serialization pre-pass performed by `json.dump(..., cls=BytesJsonEncoder)`:
every `bytes` value anywhere in the tree is rendered as its hex string via
`BytesJsonEncoder.default` (which calls `obj.hex()`); all other values keep
their natural JSON form, object fields keeping insertion order. -/
def encodeValue : Json → Json
  | .null => .null
  | .bool b => .bool b
  | .num n => .num n
  | .str s => .str s
  | .bytes bs => .str (encode_hex bs)
  | .arr elems => .arr (encodeList elems)
  | .obj fields => .obj (encodeFields fields)

def encodeList : List Json → List Json
  | [] => []
  | v :: rest => encodeValue v :: encodeList rest

def encodeFields : List (String × Json) → List (String × Json)
  | [] => []
  | (k, v) :: rest => (k, encodeValue v) :: encodeFields rest
end

/-! ### Filesystem model -/

/-- The content found in a file, as seen by `json.load`: either text that
parses to a JSON value, or text that raises `JSONDecodeError` carrying the
given error message. -/
inductive FileData where
  | json (v : Json) : FileData
  | invalid (err : String) : FileData

/-- A filesystem: files as an association list from paths to their data, plus
the set of existing directories. -/
structure FileSystem where
  files : List (FsPath × FileData)
  dirs : List FsPath

/-- Association-list lookup of a file's data. -/
def readFs : List (FsPath × FileData) → FsPath → Option FileData
  | [], _ => none
  | (q, d) :: rest, p => if q = p then some d else readFs rest p

/-- `path.exists()` / `open(path, "r")`: the data of the file at `p`, if any. -/
def FileSystem.readFile (fs : FileSystem) (p : FsPath) : Option FileData :=
  readFs fs.files p

/-- Overwrite (or create) the file at `p` in the file table. -/
def writeFs : List (FsPath × FileData) → FsPath → FileData → List (FsPath × FileData)
  | [], p, d => [(p, d)]
  | (q, e) :: rest, p, d =>
      if q = p then (q, d) :: rest else (q, e) :: writeFs rest p d

/-- All prefixes of a path: the chain of directories
`output_file_path.parent.mkdir(parents=True, exist_ok=True)` must establish
when handed `p.dropLast` as the parent. -/
def ancestors : FsPath → List FsPath
  | [] => [[]]
  | c :: rest => [] :: (ancestors rest).map (c :: ·)

/-- Record one directory as existing (`mkdir` with `exist_ok=True` on one
component: a no-op if it is already there). -/
def insertDir (acc : List FsPath) (q : FsPath) : List FsPath :=
  if q ∈ acc then acc else q :: acc

/-- Lines 126–128 of the source:
`output_file_path.parent.mkdir(parents=True, exist_ok=True)` followed by
`open(output_file_path, "w")` and the dump — creates every missing ancestor
directory of the parent, then unconditionally overwrites the file at `p`. -/
def FileSystem.writeFile (fs : FileSystem) (p : FsPath) (d : FileData) : FileSystem :=
  { files := writeFs fs.files p d
    dirs := (ancestors p.dropLast).foldl insertDir fs.dirs }

/-! ### External collaborators (not under the visible sources) -/

/-- Modelled from the spec: `BeaconChainConfig.get_genesis_config_file_path`
(module `trinity.config`, not under the visible sources). Per §6, when
`--output` is omitted the output path is "a profile-specific well-known
location". -/
def get_genesis_config_file_path (profile : String) : FsPath :=
  ["eth2", profile, "genesis_config.json"]

/-- Modelled from the spec: an opaque deterministic state root produced by the
generation collaborator for a profile and genesis time (§3: the output artifact
contains a `genesis_state_root` binary value; its computation is explicitly out
of scope). -/
def generated_state_root (profile : String) (genesis_time : Int) : List Nat :=
  (profile.data.map Char.toNat ++ [(genesis_time % 256).toNat]).map (· % 256)

/-- Modelled from the spec: `generate_genesis_config` (module `eth2.genesis`,
not under the visible sources). Per §4.3 case 2 and §8, generate mode builds a
brand-new artifact from the profile and the resolved time, whose
`genesis_state.genesis_time` equals that time, with a `genesis_state_root`
binary value and validator data produced by the collaborator. -/
def generate_genesis_config (profile : String) (genesis_time : Int) : Json :=
  .obj [("genesis_state",
          .obj [("genesis_time", .num genesis_time),
                ("validators", .arr [.str profile])]),
        ("genesis_state_root", .bytes (generated_state_root profile genesis_time))]

/-- Modelled from the spec: `update_genesis_config_with_time` (module
`eth2.genesis`, not under the visible sources). Per §4.3 case 1, update mode
takes the existing artifact and rewrites its `genesis_state.genesis_time`
field to the newly resolved time; all other fields are carried over
unchanged. -/
def update_genesis_config_with_time (config : Json) (genesis_time : Int) : Json :=
  match config with
  | .obj fields =>
      match lookupField fields "genesis_state" with
      | some (.obj stateFields) =>
          .obj (setField fields "genesis_state"
            (.obj (setField stateFields "genesis_time" (.num genesis_time))))
      | _ =>
          .obj (setField fields "genesis_state"
            (.obj [("genesis_time", .num genesis_time)]))
  | _ => config

/-- Modelled from the spec: an opaque deterministic state root derived from
the contents of a state file (§4.3 case 3: `genesis_state_root` is derived
from the given state file via the external collaborator; SSZ parsing is out of
scope). -/
def derived_state_root (state_path : FsPath) : List Nat :=
  (String.intercalate "/" state_path).data.map (fun c => c.toNat % 256)

/-- Modelled from the spec: `genesis_config_from_state` (module `eth2.genesis`,
not under the visible sources). Per §4.3 case 3, derive mode builds a new
artifact by reading the given state file and deriving `genesis_state_root`
from it; the artifact contains the `genesis_state` document read from the
file (§3: with its `genesis_time` integer field). -/
def genesis_config_from_state (profile : String) (state_path : FsPath) : Json :=
  .obj [("genesis_state",
          .obj [("genesis_time", .num ((String.intercalate "/" state_path).length : Int)),
                ("source_profile", .str profile)]),
        ("genesis_state_root", .bytes (derived_state_root state_path))]

/-! ### The `_generate_network_as_json` entry point -/

/-- The parsed CLI arguments relevant to `_generate_network_as_json`. The
mutually exclusive group guarantees at most one of `genesis_time`,
`genesis_delay`, `genesis_state` is present; `none` is Python `None`. -/
structure Args where
  config_profile : String
  output : Option FsPath
  genesis_time : Option Int
  genesis_delay : Option Int
  genesis_state : Option FsPath

/-- A Python local variable: reading it while unbound raises
`UnboundLocalError`. -/
inductive LocalVar (α : Type) where
  | unbound : LocalVar α
  | bound (v : α) : LocalVar α

/-- The exceptions the embedded run can surface to the caller.
`typeErrorNonePath` models passing `None` where the collaborator opens a
path; `keyError`/`typeError` model the subscript accesses in the final
logging line. -/
inductive RunError where
  | unboundLocalError (name : String) : RunError
  | typeErrorNonePath : RunError
  | keyError (key : String) : RunError
  | typeError : RunError
deriving DecidableEq

/-- A log line emitted through `cls.logger`. -/
inductive LogEntry where
  | info (msg : String) : LogEntry
  | warning (msg : String) : LogEntry
deriving DecidableEq

/-- The observable outcome of a successful run: the genesis configuration
that was produced, the filesystem after the write, and the log. -/
structure RunResult where
  config : Json
  fs : FileSystem
  log : List LogEntry

/-- Lines 97–104 of the source — the TimeSource of the spec:
`if args.genesis_time: genesis_time = args.genesis_time elif
args.genesis_delay: genesis_time = int(time.time()) + args.genesis_delay`.
No branch taken leaves `genesis_time` unassigned (`none`). Note both
conditions are Python truthiness tests, so an explicit time or delay of `0`
takes neither branch. -/
def resolveTime (genesis_time genesis_delay : Option Int) (now : Int) : Option Int :=
  if intTruthy genesis_time then genesis_time
  else if intTruthy genesis_delay then some (now + genesis_delay.getD 0)
  else none

/-- Lines 117–128 of the source: the final info line reads
`genesis_config["genesis_state"]["genesis_time"]` and
`genesis_config["genesis_state_root"]` (a missing key or a non-dict/non-int
shape raises `KeyError`/`TypeError` before anything is written), then
`output_file_path.parent.mkdir(parents=True, exist_ok=True)` and
`json.dump(genesis_config, output_file, cls=BytesJsonEncoder)`. -/
def logAndWrite (genesis_config : Json) (output_file_path : FsPath)
    (fs : FileSystem) (log : List LogEntry) : Except RunError RunResult :=
  match genesis_config.getKey "genesis_state" with
  | none => .error (.keyError "genesis_state")
  | some gs =>
      match gs.getKey "genesis_time" with
      | none => .error (.keyError "genesis_time")
      | some (.num t) =>
          match genesis_config.getKey "genesis_state_root" with
          | none => .error (.keyError "genesis_state_root")
          | some _ =>
              .ok { config := genesis_config
                    fs := fs.writeFile output_file_path (.json (encodeValue genesis_config))
                    log := log ++
                      [.info ("configuration generated with genesis time " ++ toString t)] }
      | some _ => .error .typeError

/-- The log accumulated by lines 84–103 before the dispatch: the profile info
line, the warning when the existing file fails to parse (`p` is the resolved
output path), and the info line of whichever time branch was taken. -/
def preWriteLog (args : Args) (fs : FileSystem) (p : FsPath) : List LogEntry :=
  let log0 : List LogEntry := [.info ("using config profile: " ++ args.config_profile)]
  let log1 : List LogEntry :=
    match fs.readFile p with
    | none => log0
    | some (.json _) => log0
    | some (.invalid e) =>
        log0 ++ [.warning ("failed to load existing config as json: " ++ e)]
  if intTruthy args.genesis_time then
    log1 ++ [.info ("genesis time specified from config: " ++
      toString (args.genesis_time.getD 0))]
  else if intTruthy args.genesis_delay then
    log1 ++ [.info ("genesis delay specified from config: " ++
      toString (args.genesis_delay.getD 0))]
  else log1

/-- `NetworkGeneratorComponent._generate_network_as_json` (lines 80–128).
`now` is the value of `int(time.time())` at the delay branch. Faithful
details: the output path defaults through the profile when `--output` is
absent; `existing_genesis_config` is assigned **only when the output file
exists** (parse failure assigns `None` and logs a warning, see
`preWriteLog`), so the update/generate dispatch reads an unbound local when
the file is absent and a time was requested — `UnboundLocalError`; the
dispatch conditions are Python truthiness tests with `and`/`or`
short-circuiting; the fallback branch hands `args.genesis_state` to the
collaborator, fatal when it is `None`. -/
def generate_network_as_json (args : Args) (fs : FileSystem) (now : Int) :
    Except RunError RunResult :=
  let output_file_path : FsPath :=
    match args.output with
    | some p => p
    | none => get_genesis_config_file_path args.config_profile
  let existing_genesis_config : LocalVar (Option Json) :=
    match fs.readFile output_file_path with
    | none => .unbound
    | some (.json v) => .bound (some v)
    | some (.invalid _) => .bound none
  let log2 : List LogEntry := preWriteLog args fs output_file_path
  let genesis_time : LocalVar Int :=
    match resolveTime args.genesis_time args.genesis_delay now with
    | some t => .bound t
    | none => .unbound
  if intTruthy args.genesis_time || intTruthy args.genesis_delay then
    match existing_genesis_config with
    | .unbound => .error (.unboundLocalError "existing_genesis_config")
    | .bound e =>
        let t : Int := match genesis_time with | .bound t => t | .unbound => 0
        if truthyOptJson e then
          logAndWrite (update_genesis_config_with_time (e.getD .null) t)
            output_file_path fs log2
        else
          logAndWrite (generate_genesis_config args.config_profile t)
            output_file_path fs log2
  else
    match args.genesis_state with
    | none => .error .typeErrorNonePath
    | some state_path =>
        logAndWrite (genesis_config_from_state args.config_profile state_path)
          output_file_path fs log2

/-- The configuration produced by a successful run, `none` when the run
raised. -/
def runConfig (args : Args) (fs : FileSystem) (now : Int) : Option Json :=
  match generate_network_as_json args fs now with
  | .ok r => some r.config
  | .error _ => none

/-- The log of a successful run (empty when the run raised). -/
def runLog (args : Args) (fs : FileSystem) (now : Int) : List LogEntry :=
  match generate_network_as_json args fs now with
  | .ok r => r.log
  | .error _ => []

/-- Whether the run completed without raising. -/
def runOk (args : Args) (fs : FileSystem) (now : Int) : Bool :=
  match generate_network_as_json args fs now with
  | .ok _ => true
  | .error _ => false

/-! ### Helper lemmas -/

theorem lookupField_setField_self (l : List (String × Json)) (k : String) (v : Json) :
    lookupField (setField l k v) k = some v := by
  induction l with
  | nil => simp [setField, lookupField]
  | cons kv rest ih =>
      obtain ⟨k0, v0⟩ := kv
      by_cases hk : k0 = k
      · simp [setField, lookupField, hk]
      · simp [setField, lookupField, hk, ih]

theorem lookupField_setField_ne (l : List (String × Json)) (k k' : String) (v : Json)
    (h : k' ≠ k) : lookupField (setField l k v) k' = lookupField l k' := by
  have hne : ¬ k = k' := fun hh => h hh.symm
  induction l with
  | nil => simp [setField, lookupField, hne]
  | cons kv rest ih =>
      obtain ⟨k0, v0⟩ := kv
      by_cases hk : k0 = k
      · subst hk
        simp [setField, lookupField, hne]
      · by_cases hk' : k0 = k'
        · subst hk'
          simp [setField, lookupField, hk]
        · simp [setField, lookupField, hk, hk', ih]

theorem lookupField_ne_nil {l : List (String × Json)} {k : String} {v : Json}
    (h : lookupField l k = some v) : l.isEmpty = false := by
  cases l with
  | nil => simp [lookupField] at h
  | cons kv rest => simp [List.isEmpty]

theorem timeRequested_of_resolve {et d : Option Int} {now t : Int}
    (h : resolveTime et d now = some t) : (intTruthy et || intTruthy d) = true := by
  by_cases h1 : intTruthy et <;> by_cases h2 : intTruthy d <;>
    simp [resolveTime, h1, h2] at h ⊢

theorem insertDir_mem_self (acc : List FsPath) (q : FsPath) : q ∈ insertDir acc q := by
  by_cases h : q ∈ acc <;> simp [insertDir, h]

theorem insertDir_mem_mono {acc : List FsPath} {q : FsPath} (q' : FsPath)
    (h : q ∈ acc) : q ∈ insertDir acc q' := by
  by_cases h' : q' ∈ acc <;> simp [insertDir, h', h]

theorem foldl_insertDir_mem_of_mem_acc (qs : List FsPath) {acc : List FsPath} {q : FsPath}
    (h : q ∈ acc) : q ∈ qs.foldl insertDir acc := by
  induction qs generalizing acc with
  | nil => simpa using h
  | cons q0 rest ih => exact ih (insertDir_mem_mono q0 h)

theorem foldl_insertDir_mem_of_mem (qs : List FsPath) (acc : List FsPath) {q : FsPath}
    (h : q ∈ qs) : q ∈ qs.foldl insertDir acc := by
  induction qs generalizing acc with
  | nil => simp at h
  | cons q0 rest ih =>
      rcases List.mem_cons.mp h with h0 | h0
      · subst h0
        exact foldl_insertDir_mem_of_mem_acc rest (insertDir_mem_self acc q)
      · exact ih _ h0

theorem readFs_writeFs_self (l : List (FsPath × FileData)) (p : FsPath) (d : FileData) :
    readFs (writeFs l p d) p = some d := by
  induction l with
  | nil => simp [writeFs, readFs]
  | cons qe rest ih =>
      obtain ⟨q, e⟩ := qe
      by_cases hq : q = p
      · simp [writeFs, readFs, hq]
      · simp [writeFs, readFs, hq, ih]

theorem hexDigitVal_hexDigitChar : ∀ n, n < 16 → hexDigitVal (hexDigitChar n) = some n := by
  decide

theorem isLowerHexDigit_hexDigitChar : ∀ n, n < 16 → isLowerHexDigit (hexDigitChar n) = true := by
  decide

theorem logAndWrite_ok (cfg gs : Json) (t : Int) (rv : Json) (p : FsPath) (fs : FileSystem)
    (log : List LogEntry)
    (hgs : cfg.getKey "genesis_state" = some gs)
    (hgt : gs.getKey "genesis_time" = some (.num t))
    (hroot : cfg.getKey "genesis_state_root" = some rv) :
    logAndWrite cfg p fs log
      = .ok { config := cfg
              fs := fs.writeFile p (.json (encodeValue cfg))
              log := log ++
                [.info ("configuration generated with genesis time " ++ toString t)] } := by
  simp only [logAndWrite, hgs, hgt, hroot]

theorem run_mode_update (args : Args) (fs : FileSystem) (now t : Int) (p : FsPath) (e : Json)
    (hout : args.output = some p)
    (hfile : fs.readFile p = some (.json e))
    (htruthy : e.truthy = true)
    (hres : resolveTime args.genesis_time args.genesis_delay now = some t) :
    generate_network_as_json args fs now
      = logAndWrite (update_genesis_config_with_time e t) p fs (preWriteLog args fs p) := by
  have hreq := timeRequested_of_resolve hres
  unfold generate_network_as_json
  simp only [hout, hfile, hres, hreq, truthyOptJson, htruthy, if_true, Option.getD]

theorem run_mode_generate (args : Args) (fs : FileSystem) (now t : Int) (p : FsPath) (v : Json)
    (hout : args.output = some p)
    (hfile : fs.readFile p = some (.json v))
    (hfalsy : v.truthy = false)
    (hres : resolveTime args.genesis_time args.genesis_delay now = some t) :
    generate_network_as_json args fs now
      = logAndWrite (generate_genesis_config args.config_profile t) p fs
          (preWriteLog args fs p) := by
  have hreq := timeRequested_of_resolve hres
  unfold generate_network_as_json
  simp only [hout, hfile, hres, hreq, truthyOptJson, hfalsy, if_true, Bool.false_eq_true,
    if_false]

theorem run_mode_state (args : Args) (fs : FileSystem) (now : Int) (p sp : FsPath)
    (hout : args.output = some p)
    (ht : args.genesis_time = none)
    (hd : args.genesis_delay = none)
    (hs : args.genesis_state = some sp) :
    generate_network_as_json args fs now
      = logAndWrite (genesis_config_from_state args.config_profile sp) p fs
          (preWriteLog args fs p) := by
  unfold generate_network_as_json
  simp only [hout, ht, hd, hs, intTruthy, Bool.or_self, Bool.false_eq_true, if_false]

theorem decodeHexChars_flatMap (bs : List Nat) (h : ∀ b ∈ bs, b < 256) :
    decodeHexChars (bs.flatMap byteToHex) = some bs := by
  induction bs with
  | nil => rfl
  | cons b rest ih =>
      have hb : b < 256 := h b (List.mem_cons_self b rest)
      have hrest : ∀ x ∈ rest, x < 256 := fun x hx => h x (List.mem_cons_of_mem _ hx)
      have hhi : b / 16 < 16 := Nat.div_lt_of_lt_mul (by omega)
      have hlo : b % 16 < 16 := Nat.mod_lt _ (by omega)
      have hflat : (b :: rest).flatMap byteToHex
          = hexDigitChar (b / 16) :: hexDigitChar (b % 16) :: rest.flatMap byteToHex := by
        simp [List.flatMap_cons, byteToHex]
      rw [hflat]
      simp only [decodeHexChars, hexDigitVal_hexDigitChar _ hhi,
        hexDigitVal_hexDigitChar _ hlo, ih hrest]
      have : 16 * (b / 16) + b % 16 = b := by omega
      rw [this]

/-! ### Claims -/

/-- Claim C1. The claim states that when a time was resolved and no file
exists at the resolved output path, the run completes without raising and
builds a brand-new artifact via the generation collaborator. The code
contradicts this: `existing_genesis_config` is assigned only inside
`if output_file_path.exists():`, so with the file absent the dispatch
condition `... and existing_genesis_config` reads an unbound local and the
run raises `UnboundLocalError` instead of completing. This theorem evaluates
the embedded code at the failing input. -/
theorem C1_absent_file_raises :
    generate_network_as_json
        ⟨"minimal", some ["network_config.json"], some 1700000000, none, none⟩
        ⟨[], []⟩ 1600000000
      = .error (.unboundLocalError "existing_genesis_config") := rfl

/-- Claim C2, counterexample. The claim quantifies over every integer
including zero, but the code tests `if args.genesis_time:` by Python
truthiness, so an explicit time of exactly `0` is treated as unset and no
time is resolved. -/
theorem C2_counterexample : resolveTime (some 0) none 1700000000 ≠ some 0 := by
  decide

/-- Claim C2, amended: for every *nonzero* `explicit_time` and every `now`,
time resolution with an explicit time set and no delay returns
`explicit_time` unchanged. -/
theorem C2_explicit_time_identity (t now : Int) (h : t ≠ 0) :
    resolveTime (some t) none now = some t := by
  simp [resolveTime, intTruthy, h]

theorem C2_witness : ((3 : Int) ≠ 0) ∧ resolveTime (some 3) none 99 = some 3 :=
  ⟨by decide, C2_explicit_time_identity 3 99 (by decide)⟩

/-- Claim C3, counterexample. The claim quantifies over every delay
including zero, but the code tests `elif args.genesis_delay:` by Python
truthiness, so a delay of exactly `0` is treated as unset and no time is
resolved — in particular the result is not `now + 0`. -/
theorem C3_counterexample : resolveTime none (some 0) 1700000000 ≠ some (1700000000 + 0) := by
  decide

/-- Claim C3, amended: for every *nonzero* `delay` and every `now`, time
resolution with no explicit time and a delay set returns `now + delay`. -/
theorem C3_delay_addition (d now : Int) (h : d ≠ 0) :
    resolveTime none (some d) now = some (now + d) := by
  simp [resolveTime, intTruthy, h]

theorem C3_witness : ((600 : Int) ≠ 0) ∧ resolveTime none (some 600) 1700000000 = some (1700000000 + 600) :=
  ⟨by decide, C3_delay_addition 600 1700000000 (by decide)⟩

/-- Claim C7: for every byte string `b` (each byte below 256), decoding the
hexadecimal string produced by the serializer's binary encoding
(`BytesJsonEncoder.default`, i.e. `bytes.hex`) yields `b` back. -/
theorem C7_hex_roundtrip (bs : List Nat) (h : ∀ b ∈ bs, b < 256) :
    decode_hex (encode_hex bs) = some bs :=
  decodeHexChars_flatMap bs h

theorem C7_witness :
    (∀ b ∈ [0, 171, 255], b < 256)
    ∧ decode_hex (encode_hex [0, 171, 255]) = some [0, 171, 255] :=
  ⟨by decide, C7_hex_roundtrip [0, 171, 255] (by decide)⟩

/-- Claim C9: the serializer encodes every byte string as a lowercase
hexadecimal string with no `0x` prefix — every character of the encoding is
a lowercase hex digit, and the first two characters are never `0x`. -/
theorem C9_lowercase_unprefixed (bs : List Nat) (h : ∀ b ∈ bs, b < 256) :
    (∀ c ∈ (encode_hex bs).data, isLowerHexDigit c = true)
    ∧ (encode_hex bs).data.take 2 ≠ ['0', 'x'] := by
  have hall : ∀ c ∈ (encode_hex bs).data, isLowerHexDigit c = true := by
    intro c hc
    have hc' : c ∈ bs.flatMap byteToHex := hc
    rcases List.mem_flatMap.mp hc' with ⟨b, hb, hcb⟩
    have hb256 : b < 256 := h b hb
    have hhi : b / 16 < 16 := Nat.div_lt_of_lt_mul (by omega)
    have hlo : b % 16 < 16 := Nat.mod_lt _ (by omega)
    simp only [byteToHex, List.mem_cons, List.not_mem_nil, or_false] at hcb
    rcases hcb with rfl | rfl
    · exact isLowerHexDigit_hexDigitChar _ hhi
    · exact isLowerHexDigit_hexDigitChar _ hlo
  refine ⟨hall, fun htake => ?_⟩
  have hx : 'x' ∈ (encode_hex bs).data := by
    have hmem : 'x' ∈ (encode_hex bs).data.take 2 := by
      rw [htake]; simp
    exact List.take_subset 2 _ hmem
  exact absurd (hall 'x' hx) (by decide)

theorem C9_witness :
    (∀ b ∈ [222, 173, 190, 239], b < 256)
    ∧ ((∀ c ∈ (encode_hex [222, 173, 190, 239]).data, isLowerHexDigit c = true)
       ∧ (encode_hex [222, 173, 190, 239]).data.take 2 ≠ ['0', 'x']) :=
  ⟨by decide, C9_lowercase_unprefixed [222, 173, 190, 239] (by decide)⟩

/-- Claim C8: writing to an output path whose parent directories do not
exist succeeds in the model — every ancestor of the parent directory is
created by `mkdir(parents=True, exist_ok=True)` — and the destination file
is overwritten unconditionally with the new data. -/
theorem C8_write_creates_parents_and_overwrites
    (fs : FileSystem) (p : FsPath) (d : FileData)
    (hmissing : ∀ q ∈ ancestors p.dropLast, q ∉ fs.dirs) :
    (∀ q ∈ ancestors p.dropLast, q ∈ (fs.writeFile p d).dirs)
    ∧ (fs.writeFile p d).readFile p = some d := by
  constructor
  · intro q hq
    exact foldl_insertDir_mem_of_mem _ _ hq
  · exact readFs_writeFs_self fs.files p d

theorem C8_witness :
    (∀ q ∈ ancestors (["home", "user", "net.json"] : FsPath).dropLast,
      q ∉ (⟨[(["home", "user", "net.json"], .invalid "old")], []⟩ : FileSystem).dirs)
    ∧ ((∀ q ∈ ancestors (["home", "user", "net.json"] : FsPath).dropLast,
          q ∈ ((⟨[(["home", "user", "net.json"], .invalid "old")], []⟩ : FileSystem).writeFile
            ["home", "user", "net.json"] (.json .null)).dirs)
       ∧ ((⟨[(["home", "user", "net.json"], .invalid "old")], []⟩ : FileSystem).writeFile
            ["home", "user", "net.json"] (.json .null)).readFile ["home", "user", "net.json"]
          = some (.json .null)) :=
  ⟨by decide, C8_write_creates_parents_and_overwrites _ _ _ (by decide)⟩

/-- Claim C5: with a `StateFile` input (no time resolved), the produced
artifact equals the artifact derived from that state file by the external
collaborator — in particular its `genesis_state_root` is the derived value —
for *every* filesystem, i.e. regardless of any existing artifact at the
output path. -/
theorem C5_state_file_mode
    (args : Args) (fs : FileSystem) (now : Int) (p sp : FsPath)
    (hout : args.output = some p)
    (ht : args.genesis_time = none)
    (hd : args.genesis_delay = none)
    (hs : args.genesis_state = some sp) :
    runConfig args fs now = some (genesis_config_from_state args.config_profile sp)
    ∧ (genesis_config_from_state args.config_profile sp).getKey "genesis_state_root"
        = some (.bytes (derived_state_root sp)) := by
  constructor
  · unfold runConfig
    rw [run_mode_state args fs now p sp hout ht hd hs,
      logAndWrite_ok (genesis_config_from_state args.config_profile sp)
        (.obj [("genesis_time", .num ((String.intercalate "/" sp).length : Int)),
               ("source_profile", .str args.config_profile)])
        ((String.intercalate "/" sp).length : Int)
        (.bytes (derived_state_root sp)) p fs _ rfl rfl rfl]
  · rfl

theorem C5_witness :
    (⟨"minimal", some ["net.json"], none, none, some ["state.ssz"]⟩ : Args).genesis_time = none
    ∧ runConfig ⟨"minimal", some ["net.json"], none, none, some ["state.ssz"]⟩
        ⟨[(["net.json"],
           .json (.obj [("genesis_state", .obj [("genesis_time", .num 11)]),
                        ("genesis_state_root", .str "deadbeef")]))], []⟩ 0
      = some (genesis_config_from_state "minimal" ["state.ssz"]) :=
  ⟨rfl,
   (C5_state_file_mode ⟨"minimal", some ["net.json"], none, none, some ["state.ssz"]⟩
      ⟨[(["net.json"],
         .json (.obj [("genesis_state", .obj [("genesis_time", .num 11)]),
                      ("genesis_state_root", .str "deadbeef")]))], []⟩ 0
      ["net.json"] ["state.ssz"] rfl rfl rfl rfl).1⟩

/-- Claim C10: when a time is resolved and the file at the output path
exists and parses to a *falsy* JSON value (empty object, `null`, `0`, empty
list, ...), the run takes generate mode — the produced artifact is built
fresh from the profile by the generation collaborator — even though a
present artifact was loaded. -/
theorem C10_falsy_existing_generates
    (args : Args) (fs : FileSystem) (now t : Int) (p : FsPath) (v : Json)
    (hout : args.output = some p)
    (hfile : fs.readFile p = some (.json v))
    (hfalsy : v.truthy = false)
    (hres : resolveTime args.genesis_time args.genesis_delay now = some t) :
    runConfig args fs now = some (generate_genesis_config args.config_profile t) := by
  unfold runConfig
  rw [run_mode_generate args fs now t p v hout hfile hfalsy hres,
    logAndWrite_ok (generate_genesis_config args.config_profile t)
      (.obj [("genesis_time", .num t), ("validators", .arr [.str args.config_profile])])
      t (.bytes (generated_state_root args.config_profile t)) p fs _ rfl rfl rfl]

theorem C10_witness :
    (Json.obj []).truthy = false
    ∧ resolveTime (some 5) none 0 = some 5
    ∧ runConfig ⟨"minimal", some ["net.json"], some 5, none, none⟩
        ⟨[(["net.json"], .json (.obj []))], []⟩ 0
      = some (generate_genesis_config "minimal" 5) :=
  ⟨rfl, rfl,
   C10_falsy_existing_generates ⟨"minimal", some ["net.json"], some 5, none, none⟩
     ⟨[(["net.json"], .json (.obj []))], []⟩ 0 5 ["net.json"] (.obj []) rfl rfl rfl rfl⟩

/-- Claim C4: in update mode — existing valid artifact with
`genesis_state.genesis_time = T1`, resolved time `T2 ≠ T1` — the produced
artifact is exactly `update_genesis_config_with_time` of the existing one:
its `genesis_state.genesis_time` equals `T2`, every top-level field other
than `genesis_state` (in particular `genesis_state_root`) is unchanged, and
every field of `genesis_state` other than `genesis_time` (validator data) is
unchanged. The collaborator `update_genesis_config_with_time` is modelled
from the spec. -/
theorem C4_update_mode_rewrites_time_only
    (args : Args) (fs : FileSystem) (now T1 T2 : Int) (p : FsPath)
    (fields stateFields : List (String × Json)) (rootVal : Json)
    (hout : args.output = some p)
    (hfile : fs.readFile p = some (.json (.obj fields)))
    (hgs : lookupField fields "genesis_state" = some (.obj stateFields))
    (hgt : lookupField stateFields "genesis_time" = some (.num T1))
    (hroot : lookupField fields "genesis_state_root" = some rootVal)
    (hres : resolveTime args.genesis_time args.genesis_delay now = some T2)
    (hne : T2 ≠ T1) :
    runConfig args fs now = some (update_genesis_config_with_time (.obj fields) T2)
    ∧ (update_genesis_config_with_time (.obj fields) T2).getKey2 "genesis_state" "genesis_time"
        = some (.num T2)
    ∧ (∀ k, k ≠ "genesis_state" →
        (update_genesis_config_with_time (.obj fields) T2).getKey k
          = (Json.obj fields).getKey k)
    ∧ (∀ k, k ≠ "genesis_time" →
        (update_genesis_config_with_time (.obj fields) T2).getKey2 "genesis_state" k
          = (Json.obj fields).getKey2 "genesis_state" k) := by
  have htruthy : (Json.obj fields).truthy = true := by
    have hne' := lookupField_ne_nil hgs
    simp [Json.truthy, hne']
  have hupd : update_genesis_config_with_time (.obj fields) T2
      = .obj (setField fields "genesis_state"
          (.obj (setField stateFields "genesis_time" (.num T2)))) := by
    simp only [update_genesis_config_with_time, hgs]
  have hgs' : (update_genesis_config_with_time (.obj fields) T2).getKey "genesis_state"
      = some (.obj (setField stateFields "genesis_time" (.num T2))) := by
    rw [hupd]
    simp [Json.getKey, lookupField_setField_self]
  have hgt' : (Json.obj (setField stateFields "genesis_time" (.num T2))).getKey "genesis_time"
      = some (.num T2) := by
    simp [Json.getKey, lookupField_setField_self]
  have hroot' : (update_genesis_config_with_time (.obj fields) T2).getKey "genesis_state_root"
      = some rootVal := by
    rw [hupd]
    simp only [Json.getKey]
    rw [lookupField_setField_ne _ _ _ _ (by decide)]
    exact hroot
  refine ⟨?_, ?_, ?_, ?_⟩
  · unfold runConfig
    rw [run_mode_update args fs now T2 p (.obj fields) hout hfile htruthy hres,
      logAndWrite_ok (update_genesis_config_with_time (.obj fields) T2)
        (.obj (setField stateFields "genesis_time" (.num T2))) T2 rootVal p fs _
        hgs' hgt' hroot']
  · simp only [Json.getKey2, hgs']
    exact hgt'
  · intro k hk
    rw [hupd]
    simp only [Json.getKey]
    exact lookupField_setField_ne _ _ _ _ hk
  · intro k hk
    simp only [Json.getKey2, hgs']
    simp only [Json.getKey, hgs]
    exact lookupField_setField_ne _ _ _ _ hk

theorem C4_witness :
    resolveTime (some 42) none 0 = some 42
    ∧ ((42 : Int) ≠ 11)
    ∧ runConfig ⟨"minimal", some ["net.json"], some 42, none, none⟩
        ⟨[(["net.json"],
           .json (.obj [("genesis_state",
                          .obj [("genesis_time", .num 11), ("validators", .arr [.str "v0"])]),
                        ("genesis_state_root", .bytes [222, 173])]))], []⟩ 0
      = some (update_genesis_config_with_time
          (.obj [("genesis_state",
                   .obj [("genesis_time", .num 11), ("validators", .arr [.str "v0"])]),
                 ("genesis_state_root", .bytes [222, 173])]) 42) :=
  ⟨rfl, by decide,
   (C4_update_mode_rewrites_time_only ⟨"minimal", some ["net.json"], some 42, none, none⟩
      ⟨[(["net.json"],
         .json (.obj [("genesis_state",
                        .obj [("genesis_time", .num 11), ("validators", .arr [.str "v0"])]),
                      ("genesis_state_root", .bytes [222, 173])]))], []⟩ 0 11 42
      ["net.json"]
      [("genesis_state", .obj [("genesis_time", .num 11), ("validators", .arr [.str "v0"])]),
       ("genesis_state_root", .bytes [222, 173])]
      [("genesis_time", .num 11), ("validators", .arr [.str "v0"])]
      (.bytes [222, 173]) rfl rfl rfl rfl rfl rfl (by decide)).1⟩

/-- Claim C6. The claim states that with a corrupt (non-parseable) file at
the output path, loading never raises, a warning containing the parse error
is logged, and the rest of the run behaves exactly as if no artifact were
present. On the code the first two parts hold — the corrupt-file run
completes in generate mode with the warning logged — but the promised
equivalence with the absent-file run fails, because the absent-file run
raises `UnboundLocalError` (the `existing_genesis_config` local is never
assigned when the file does not exist). This theorem evaluates both runs. -/
theorem C6_corrupt_vs_absent :
    runOk ⟨"minimal", some ["net.json"], some 1700000000, none, none⟩
        ⟨[(["net.json"], .invalid "boom")], []⟩ 0 = true
    ∧ (LogEntry.warning ("failed to load existing config as json: boom")
        ∈ runLog ⟨"minimal", some ["net.json"], some 1700000000, none, none⟩
            ⟨[(["net.json"], .invalid "boom")], []⟩ 0)
    ∧ runConfig ⟨"minimal", some ["net.json"], some 1700000000, none, none⟩
        ⟨[(["net.json"], .invalid "boom")], []⟩ 0
      = some (generate_genesis_config "minimal" 1700000000)
    ∧ generate_network_as_json ⟨"minimal", some ["net.json"], some 1700000000, none, none⟩
        ⟨[], []⟩ 0
      = .error (.unboundLocalError "existing_genesis_config") :=
  ⟨rfl, by decide, rfl, rfl⟩
